import Mathlib

/-!
Verification of the privaxy proxy core against its specification.

The Rust sources are shallowly embedded: pure functions become Lean
functions, the stateful actors (certificate cache, filter-engine actor,
statistics tables) become explicit state-passing functions or small
executable transition systems.  Machine integers are modelled as `Nat`
(counters never overflow in the properties considered), byte strings as
`List Nat`, and Rust `String` as Lean `String` (Rust `str::len` is the
UTF-8 byte length, modelled by `String.utf8ByteSize`).
-/

namespace Privaxy

/-! ## Generic helpers -/

/-- Boolean test that `p` is an initial segment of `l` (character lists). -/
def isInitialSegment : List Char → List Char → Bool
  | [], _ => true
  | _ :: _, [] => false
  | a :: as, b :: bs => a == b && isInitialSegment as bs

/-- Boolean substring containment on character lists; models Rust
`str::contains` with a literal pattern. -/
def containsSub (needle : List Char) : List Char → Bool
  | [] => isInitialSegment needle []
  | c :: rest => isInitialSegment needle (c :: rest) || containsSub needle rest

/-- Substring containment on strings (models Rust `String::contains`). -/
def strContains (haystack needle : String) : Bool :=
  containsSub needle.data haystack.data

/-- Prefix test on strings (models Rust `str::starts_with`). -/
def strStarts (s pre : String) : Bool :=
  isInitialSegment pre.data s.data

/-- Strip leading and trailing whitespace (models Rust `str::trim`). -/
def strTrim (s : String) : String :=
  String.mk (((s.data.dropWhile Char.isWhitespace).reverse.dropWhile
    Char.isWhitespace).reverse)

/-- Accumulator-based splitting of a character list into maximal
non-whitespace words. -/
def wordsAux : List Char → List Char → List String
  | [], acc => if acc.isEmpty then [] else [String.mk acc.reverse]
  | c :: rest, acc =>
    if c.isWhitespace then
      if acc.isEmpty then wordsAux rest []
      else String.mk acc.reverse :: wordsAux rest []
    else wordsAux rest (c :: acc)

/-- Rust `str::split_whitespace`: whitespace-separated words, no empty
pieces. -/
def splitWs (s : String) : List String :=
  wordsAux s.data []

/-- UTF-8 encoding of one scalar value, as byte values. -/
def utf8Bytes (c : Char) : List Nat :=
  let n := c.toNat
  if n < 128 then [n]
  else if n < 2048 then [192 + n / 64, 128 + n % 64]
  else if n < 65536 then [224 + n / 4096, 128 + n / 64 % 64, 128 + n % 64]
  else [240 + n / 262144, 128 + n / 4096 % 64, 128 + n / 64 % 64, 128 + n % 64]

/-- UTF-8 bytes of a string. -/
def stringUtf8Bytes (s : String) : List Nat :=
  (s.data.map utf8Bytes).flatten

/-- Alphabet of standard base64 (RFC 4648), as used by
`base64::engine::general_purpose::STANDARD`. -/
def b64Alphabet : List Char :=
  "ABCDEFGHIJKLMNOPQRSTUVWXYZabcdefghijklmnopqrstuvwxyz0123456789+/".data

/-- Character for a 6-bit value in standard base64. -/
def b64Char (n : Nat) : Char := b64Alphabet.getD n 'A'

/-- Standard base64 encoding with padding over a byte list; models
`general_purpose::STANDARD.encode`. -/
def base64Encode : List Nat → List Char
  | [] => []
  | [b1] =>
    [b64Char (b1 % 256 / 4), b64Char (b1 % 4 * 16), '=', '=']
  | [b1, b2] =>
    [b64Char (b1 % 256 / 4), b64Char (b1 % 4 * 16 + b2 % 256 / 16),
     b64Char (b2 % 16 * 4), '=']
  | b1 :: b2 :: b3 :: rest =>
    b64Char (b1 % 256 / 4) :: b64Char (b1 % 4 * 16 + b2 % 256 / 16) ::
    b64Char (b2 % 16 * 4 + b3 % 256 / 64) :: b64Char (b3 % 64) ::
    base64Encode rest

/-- Base64 of the UTF-8 bytes of a string; models
`STANDARD.encode(&string)`. -/
def base64EncodeString (s : String) : String :=
  String.mk (base64Encode (stringUtf8Bytes s))

/-- Association-list lookup keyed on the first component. -/
def alookup {α β : Type} [BEq α] (l : List (α × β)) (k : α) : Option β :=
  match l.find? (fun p => p.1 == k) with
  | some p => some p.2
  | none => none

/-- Insert-or-replace into an association list, modelling `DashMap::insert`. -/
def ainsert {α β : Type} [BEq α] (l : List (α × β)) (k : α) (v : β) : List (α × β) :=
  (k, v) :: l.filter (fun p => p.1 != k)

/-! ## Certificate model (`cert.rs`)

`http::uri::Authority` is modelled by its host string and optional port.
The X.509 builder calls of `SignedWithCaCert` are modelled by recording
the fields the specification talks about (subject CN); the 159-bit random
serial is modelled by a mint sequence number, so that two distinct
constructions yield distinct leaves, exactly as two independent draws of a
159-bit random serial do (up to negligible collision probability). -/

/-- Authority (`host:port`), the cache key of the certificate cache. -/
structure Authority where
  host : String
  port : Option Nat
deriving DecidableEq, Repr

/-- Literal CN used when the host does not fit in a 64-byte CN. -/
def privaxyCnTooLong : String := "privaxy_cn_too_long.local"

/-- Subject part of the X.509 certificate request built by
`SignedWithCaCert::build_certificate_request` (cert.rs lines 66-83): the
CN is the authority host, replaced by the literal sentinel when the host
string is longer than 64 bytes. -/
structure X509RequestModel where
  subject_cn : String
deriving DecidableEq, Repr

/-- Model of `SignedWithCaCert::build_certificate_request`. -/
def build_certificate_request (authority : Authority) : X509RequestModel :=
  let authority_host := authority.host
  let common_name :=
    if authority_host.utf8ByteSize > 64 then privaxyCnTooLong
    else authority_host
  { subject_cn := common_name }

/-- Leaf certificate minted by `SignedWithCaCert::new`.  `serial` is the
mint sequence number standing in for the fresh 159-bit random serial of
each construction (cert.rs lines 95-99): distinct constructions give
distinct serials. -/
structure LeafCert where
  authority : Authority
  serial : Nat
deriving DecidableEq, Repr

/-- Program counter of one task executing `CertCache::get` (cert.rs lines
238-258), one constructor per atomic action of the async function. -/
inductive GetPc where
  /-- About to read the cache (line 240). -/
  | check_cache
  /-- Cache missed; about to bump the miss counter (line 245). -/
  | record_miss
  /-- About to read the pending map (line 248). -/
  | check_pending
  /-- Pending map had no entry; about to run `generate_certificate`
  (line 255). -/
  | generate
  /-- Generation finished; about to insert into the cache (line 256). -/
  | insert_cache (c : LeafCert)
  /-- Registered a oneshot sender in the pending map; awaiting the
  broadcast (line 251). -/
  | await_cert
  /-- The call returned this certificate. -/
  | returned (c : LeafCert)
deriving DecidableEq, Repr

/-- One in-flight `CertCache::get` call. -/
structure GetTask where
  authority : Authority
  pc : GetPc
deriving DecidableEq, Repr

/-- Shared state of `CertCache` plus the set of in-flight `get` tasks.
`pending_inserts` is a ghost counter: it counts executions of
`self.pending.insert(...)` from `get` (cert.rs line 250) and does not
influence any behaviour. -/
structure CacheSys where
  cache : List (Authority × LeafCert)
  pending : List (Authority × Nat)
  hits : Nat
  misses : Nat
  mint_count : Nat
  pending_inserts : Nat
  tasks : List GetTask
deriving DecidableEq, Repr

/-- Replace the program counter of task `i`. -/
def setTaskPc (s : CacheSys) (i : Nat) (pc : GetPc) : CacheSys :=
  { s with tasks := s.tasks.set i { (s.tasks.getD i ⟨⟨"", none⟩, pc⟩) with pc := pc } }

/-- Advance task `i` by one atomic step of `CertCache::get`.  Each branch
mirrors one statement of cert.rs lines 238-258.  A task at `await_cert`
blocks (only the background generator loop could complete it), and a
finished task is inert. -/
def stepGet (s : CacheSys) (i : Nat) : CacheSys :=
  match s.tasks.get? i with
  | none => s
  | some t =>
    match t.pc with
    | .check_cache =>
      match alookup s.cache t.authority with
      | some c => setTaskPc { s with hits := s.hits + 1 } i (.returned c)
      | none => setTaskPc s i .record_miss
    | .record_miss => setTaskPc { s with misses := s.misses + 1 } i .check_pending
    | .check_pending =>
      match alookup s.pending t.authority with
      | some _ =>
        -- a generation is pending: register our oneshot sender and await
        setTaskPc
          { s with pending := ainsert s.pending t.authority i,
                   pending_inserts := s.pending_inserts + 1 }
          i .await_cert
      | none =>
        -- no pending entry: `get` goes straight to generation, without
        -- registering itself in the pending map
        setTaskPc s i .generate
    | .generate =>
      let c : LeafCert := { authority := t.authority, serial := s.mint_count }
      setTaskPc { s with mint_count := s.mint_count + 1 } i (.insert_cache c)
    | .insert_cache c =>
      setTaskPc { s with cache := ainsert s.cache t.authority c } i (.returned c)
    | .await_cert => s
    | .returned _ => s

/-- One pass of the background `certificate_generator` loop (cert.rs lines
209-224): for each pending authority not in the cache, generate a leaf,
send it to the registered waiter, and insert it into the cache.  (The
generation `await` is collapsed into one atomic action; this only makes
the loop better behaved than the source.) -/
def stepGenerator (s : CacheSys) : CacheSys :=
  s.pending.foldl
    (fun acc entry =>
      let authority := entry.1
      if (alookup acc.cache authority).isSome then acc
      else
        let c : LeafCert := { authority := authority, serial := acc.mint_count }
        let acc := { acc with mint_count := acc.mint_count + 1 }
        match alookup acc.pending authority with
        | some waiter =>
          { acc with
            pending := acc.pending.filter (fun p => p.1 != authority),
            cache := ainsert acc.cache authority c,
            tasks := acc.tasks.set waiter
              { (acc.tasks.getD waiter ⟨authority, .await_cert⟩) with
                pc := .returned c } }
        | none => { acc with cache := ainsert acc.cache authority c })
    s

/-- Run a schedule: `some i` advances `get` task `i`, `none` runs one
pass of the background generator loop. -/
def runSchedule (s : CacheSys) : List (Option Nat) → CacheSys
  | [] => s
  | step :: rest =>
    match step with
    | some i => runSchedule (stepGet s i) rest
    | none => runSchedule (stepGenerator s) rest

/-- Example authority used in the concrete executions. -/
def exampleAuthority : Authority := { host := "example.com", port := some 443 }

/-- Initial state for two overlapping `get(example.com:443)` calls on an
empty cache. -/
def twoGetsInit : CacheSys :=
  { cache := [], pending := [], hits := 0, misses := 0, mint_count := 0,
    pending_inserts := 0,
    tasks := [⟨exampleAuthority, .check_cache⟩, ⟨exampleAuthority, .check_cache⟩] }

/-- An overlapping schedule: both tasks pass the cache check before
either inserts; the generator loop runs in between. -/
def twoGetsSchedule : List (Option Nat) :=
  [some 0, some 1, some 0, some 1, some 0, some 1, none,
   some 0, some 1, none, some 0, some 1, none]

/-- Certificate returned by task `i`, if it has returned. -/
def taskResult (s : CacheSys) (i : Nat) : Option LeafCert :=
  match s.tasks.get? i with
  | some t =>
    match t.pc with
    | .returned c => some c
    | _ => none
  | none => none

/-! ## MITM dispatcher model (`mitm.rs`)

For the sequential parts of the pipeline the certificate cache is run as
a single task: `certCacheGetSeq` is `CertCache::get` executed without
interleaving (the call is `await`ed to completion in
`serve_mitm_session` before anything else of the session happens).  It
returns `none` when the call would block forever awaiting a pending
broadcast. -/

/-- Sequential cache state: the two maps plus the counters. -/
structure SeqCertCache where
  cache : List (Authority × LeafCert)
  pending : List (Authority × Nat)
  hits : Nat
  misses : Nat
  mint_count : Nat
deriving DecidableEq, Repr

/-- `CertCache::get` (cert.rs lines 238-258) run to completion as a
single task. -/
def certCacheGetSeq (s : SeqCertCache) (authority : Authority) :
    Option (LeafCert × SeqCertCache) :=
  match alookup s.cache authority with
  | some c => some (c, { s with hits := s.hits + 1 })
  | none =>
    let s := { s with misses := s.misses + 1 }
    match alookup s.pending authority with
    | some _ => none
    | none =>
      let c : LeafCert := { authority := authority, serial := s.mint_count }
      let s := { s with mint_count := s.mint_count + 1 }
      some (c, { s with cache := ainsert s.cache authority c })

/-- Session continuation scheduled by `serve_mitm_session` after the
CONNECT acknowledgement (mitm.rs lines 49-71). -/
inductive SessionAction where
  /-- Raw TCP tunnel to `host:port` (`handle_tunnel`). -/
  | tunnel (host : String) (port : Nat)
  /-- TLS interception with the server configuration of the leaf
  (`handle_tls_connection`). -/
  | tls_intercept (authority : Authority) (leaf : LeafCert)
  /-- The upgrade never completed; the spawned task does nothing. -/
  | no_session
deriving DecidableEq, Repr

/-- Outcome of `serve_mitm_session` (mitm.rs lines 23-89). -/
inductive MitmOutcome where
  /-- 400 Bad Request, empty body: the URI had no authority. -/
  | bad_request
  /-- 200, empty body acknowledging the CONNECT, with the scheduled
  session continuation and the cache state after the certificate fetch. -/
  | connect_ack (action : SessionAction) (cs : SeqCertCache)
  /-- Non-CONNECT request, delegated to the serve pipeline with scheme
  HTTP. -/
  | delegated_serve
deriving DecidableEq, Repr

/-- Inbound request as seen by `serve_mitm_session`: its method and the
authority of its URI. -/
structure MitmRequest where
  method : String
  authority : Option Authority
deriving DecidableEq, Repr

/-- Model of `serve_mitm_session` (mitm.rs lines 23-89).  `exclusions` is
the snapshot of the local exclusion store, `upgrade_ok` tells whether
`hyper::upgrade::on` succeeded for the spawned continuation.  Note that
the certificate fetch (mitm.rs line 47) happens before the exclusion
check (line 51).  Returns `none` when the certificate fetch would block
forever. -/
def serve_mitm_session (exclusions : List String) (req : MitmRequest)
    (cs : SeqCertCache) (upgrade_ok : Bool) : Option MitmOutcome :=
  match req.authority with
  | none => some .bad_request
  | some authority =>
    if req.method == "CONNECT" then
      match certCacheGetSeq cs authority with
      | none => none
      | some (leaf, cs) =>
        let action :=
          if !upgrade_ok then SessionAction.no_session
          else if exclusions.contains authority.host then
            SessionAction.tunnel authority.host (authority.port.getD 443)
          else SessionAction.tls_intercept authority leaf
        some (.connect_ack action cs)
    else some .delegated_serve

/-- Empty sequential cache state. -/
def emptySeqCertCache : SeqCertCache :=
  { cache := [], pending := [], hits := 0, misses := 0, mint_count := 0 }

/-! ## Filter engine actor model (`blocker.rs`)

The `Engine` of the `adblock` crate is external: its construction is modelled
by recording what the actor feeds it (the filter-list strings added with
default parse options, and the attached resource table), and its query
behaviour (`check_network_request`, `url_cosmetic_resources`,
`hidden_class_id_selectors`, `Request::new`) is a parameter
(`EngineSemantics`) of the embedding, so every theorem below holds for
any behaviour of the external crate. -/

/-- Model of `adblock::blocker::BlockerResult`. -/
structure NetworkMatch where
  matched : Bool
  important : Bool
  redirect : Option String
  exception : Option String
  filter : Option String
  rewritten_url : Option String
deriving DecidableEq, Repr

/-- The all-false match built inline by `handle_network_request`
(blocker.rs lines 214-221 and 234-241). -/
def allFalseMatch : NetworkMatch :=
  { matched := false, important := false, redirect := none,
    exception := none, filter := none, rewritten_url := none }

/-- Model of `CosmeticBlockerResult` (blocker.rs lines 97-102); the
`HashMap` of style selectors is modelled as an association list. -/
structure CosmeticResult where
  hidden_selectors : List String
  style_selectors : List (String × List String)
  injected_script : Option String
deriving DecidableEq, Repr

/-- Empty cosmetic result returned when blocking is disabled
(blocker.rs lines 164-168). -/
def emptyCosmeticResult : CosmeticResult :=
  { hidden_selectors := [], style_selectors := [], injected_script := none }

/-- Model of `adblock::request::Request` as built with resource type
"other" (blocker.rs lines 225-229). -/
structure EngineRequest where
  url : String
  referer : String
  resource_type : String
deriving DecidableEq, Repr

/-- Result of `Engine::url_cosmetic_resources`. -/
structure UrlSpecificResources where
  hide_selectors : List String
  exceptions : List String
  procedural_actions : List String
  injected_script : String
  generichide : Bool
deriving DecidableEq, Repr

/-- Engine state the actor can observe: what the engine was built from.
`Engine::new(true)` is the empty build; `Engine::from_filter_set` plus
`use_resources` is recorded field by field. -/
structure EngineModel where
  filter_lists : List String
  resources_attached : List String
deriving DecidableEq, Repr

/-- Behaviour of the external `adblock` crate, as a parameter. -/
structure EngineSemantics where
  request_new : String → String → Option EngineRequest
  check_network_request : EngineModel → EngineRequest → NetworkMatch
  url_cosmetic_resources : EngineModel → String → UrlSpecificResources
  hidden_class_id_selectors :
    EngineModel → List String → List String → List String → List String

/-- Counters of `MetricsCollector` touched by the blocker actor. -/
structure BlockerMetrics where
  network_requests : Nat
  cosmetic_requests : Nat
  blocked_requests : Nat
  failed_requests : Nat
  filter_updates : Nat
  active_filters : Nat
  engine_update_time : Nat
  last_update_time : Nat
  network_processing_time : Nat
  cosmetic_processing_time : Nat
deriving DecidableEq, Repr

/-- Zeroed metrics. -/
def zeroMetrics : BlockerMetrics :=
  { network_requests := 0, cosmetic_requests := 0, blocked_requests := 0,
    failed_requests := 0, filter_updates := 0, active_filters := 0,
    engine_update_time := 0, last_update_time := 0,
    network_processing_time := 0, cosmetic_processing_time := 0 }

/-- State owned by the `Blocker` actor.  `blocking_disabled` is the bool
stored in `BlockingDisabledStore` (inverted user-facing semantics), and
`resources_table` is the `ADBLOCKING_RESOURCES` table assembled at
startup, named here by resource name. -/
structure BlockerState where
  engine : EngineModel
  blocking_disabled : Bool
  metrics : BlockerMetrics
  resources_table : List String
deriving DecidableEq, Repr

/-- `BlockingDisabledStore::is_enabled` (blocker.rs lines 62-64). -/
def is_enabled (b : BlockerState) : Bool := !b.blocking_disabled

/-- Reply sent back on the oneshot channel. -/
inductive BlockerReply where
  | network (m : NetworkMatch)
  | cosmetic (c : CosmeticResult)
deriving DecidableEq, Repr

/-- Observable actions of the actor while handling one request, in
program order: engine consultations, the drop of a replaced engine, and
the reply on the oneshot channel. -/
inductive BlockerEvent where
  | engine_network_query (req : EngineRequest)
  | engine_cosmetic_query (url : String)
  | engine_dropped (old : EngineModel)
  | reply_sent (r : BlockerReply)
deriving DecidableEq, Repr

/-- Model of `Blocker::handle_network_request` (blocker.rs lines
206-252).  `elapsed` abstracts `start.elapsed().as_nanos()`.  Returns the
result, the updated metrics, and the engine consultations performed. -/
def handle_network_request (sem : EngineSemantics) (b : BlockerState)
    (url referer : String) (elapsed : Nat) :
    NetworkMatch × BlockerMetrics × List BlockerEvent :=
  let m := { b.metrics with network_requests := b.metrics.network_requests + 1 }
  if !(is_enabled b) then
    (allFalseMatch,
     { m with network_processing_time := m.network_processing_time + elapsed },
     [])
  else
    match sem.request_new url referer with
    | none =>
      (allFalseMatch,
       { m with
         network_processing_time := m.network_processing_time + elapsed,
         failed_requests := m.failed_requests + 1 },
       [])
    | some req =>
      let result := sem.check_network_request b.engine req
      let m :=
        if result.matched then
          { m with blocked_requests := m.blocked_requests + 1 }
        else m
      (result,
       { m with network_processing_time := m.network_processing_time + elapsed },
       [.engine_network_query req])

/-- Model of `Blocker::handle_cosmetic_request` (blocker.rs lines
156-204). -/
def handle_cosmetic_request (sem : EngineSemantics) (b : BlockerState)
    (url : String) (ids classes : List String) (elapsed : Nat) :
    CosmeticResult × BlockerMetrics × List BlockerEvent :=
  let m := { b.metrics with cosmetic_requests := b.metrics.cosmetic_requests + 1 }
  if !(is_enabled b) then
    (emptyCosmeticResult,
     { m with cosmetic_processing_time := m.cosmetic_processing_time + elapsed },
     [])
  else
    let usr := sem.url_cosmetic_resources b.engine url
    let generic :=
      if !usr.generichide then
        sem.hidden_class_id_selectors b.engine classes ids usr.exceptions
      else []
    let result : CosmeticResult :=
      { hidden_selectors := generic ++ usr.hide_selectors,
        style_selectors := usr.procedural_actions.map (fun s => (s, [])),
        injected_script :=
          if usr.injected_script ≠ "" then some usr.injected_script else none }
    (result,
     { m with cosmetic_processing_time := m.cosmetic_processing_time + elapsed },
     [.engine_cosmetic_query url])

/-- Model of `Blocker::update_engine` (blocker.rs lines 254-283): builds
the new engine from the filter strings with default parse options,
attaches the resource table, swaps it in (dropping the old engine), and
updates the filter metrics.  Returns the new state and the dropped old
engine. -/
def update_engine (b : BlockerState) (filters : List String) (elapsed : Nat) :
    BlockerState × EngineModel :=
  let total_size := (filters.map String.utf8ByteSize).sum
  let new_engine : EngineModel :=
    { filter_lists := filters, resources_attached := b.resources_table }
  let old_engine := b.engine
  let m :=
    { b.metrics with
      filter_updates := b.metrics.filter_updates + 1,
      engine_update_time := b.metrics.engine_update_time + elapsed,
      last_update_time := elapsed,
      active_filters := total_size / 1024 }
  ({ b with engine := new_engine, metrics := m }, old_engine)

/-- Request variants of `RequestKind` (blocker.rs lines 85-89). -/
inductive BlockerRequestKind where
  | url (u referer : String)
  | cosmetic (u : String) (ids classes : List String)
  | replace_engine (filters : List String)
deriving DecidableEq, Repr

/-- One iteration of `Blocker::handle_requests` (blocker.rs lines
285-309): handle the request, then send the reply.  The event list is in
program order, so an `engine_dropped` event precedes the `reply_sent`
event exactly when the drop happens before the reply in the source. -/
def process_request (sem : EngineSemantics) (b : BlockerState)
    (k : BlockerRequestKind) (elapsed : Nat) :
    BlockerState × List BlockerEvent :=
  match k with
  | .url u referer =>
    let (result, m, events) := handle_network_request sem b u referer elapsed
    ({ b with metrics := m }, events ++ [.reply_sent (.network result)])
  | .cosmetic u ids classes =>
    let (result, m, events) := handle_cosmetic_request sem b u ids classes elapsed
    ({ b with metrics := m }, events ++ [.reply_sent (.cosmetic result)])
  | .replace_engine filters =>
    let (b2, old_engine) := update_engine b filters elapsed
    (b2, [.engine_dropped old_engine, .reply_sent (.network allFalseMatch)])

/-- Degenerate engine semantics whose URL parser always fails; used to
exhibit a query whose URL fails to parse into an engine request. -/
def failingParseSemantics : EngineSemantics :=
  { request_new := fun _ _ => none,
    check_network_request := fun _ _ => allFalseMatch,
    url_cosmetic_resources := fun _ _ =>
      { hide_selectors := [], exceptions := [], procedural_actions := [],
        injected_script := "", generichide := false },
    hidden_class_id_selectors := fun _ _ _ _ => [] }

/-- A concrete blocker state with the blocking-disabled flag set. -/
def disabledBlockerState : BlockerState :=
  { engine := { filter_lists := [], resources_attached := [] },
    blocking_disabled := true, metrics := zeroMetrics, resources_table := [] }

/-- A concrete blocker state with blocking enabled. -/
def enabledBlockerState : BlockerState :=
  { engine := { filter_lists := [], resources_attached := [] },
    blocking_disabled := false, metrics := zeroMetrics, resources_table := [] }

/-! ## Statistics model (`statistics.rs`)

The two `DashMap` top-K tables are modelled by their snapshot at the
start of a cleanup pass: a list of key/count pairs (the iteration order
of the map is whatever order the snapshot list has).  `cleanup_old_metrics`
sorts the snapshot by descending count with a stable sort (Rust
`sort_by(|a, b| b.1.cmp(&a.1))` on `(key, count)` pairs), truncates to 50
entries, clears the map and reinserts the kept entries
(statistics.rs lines 129-163). -/

/-- Value of `ENTRIES_PER_STATISTICS_TABLE` (statistics.rs line 9). -/
def entriesPerStatisticsTable : Nat := 50

/-- Descending-count comparison used by the cleanup sort. -/
def countDescending {α : Type} (a b : α × Nat) : Bool := decide (b.2 ≤ a.2)

/-- Sort descending by count (stable) and keep the first 50 entries. -/
def trimTable {α : Type} (t : List (α × Nat)) : List (α × Nat) :=
  (t.mergeSort countDescending).take entriesPerStatisticsTable

/-- The two top-K tables: blocked paths and clients (IP addresses are
modelled as strings). -/
structure StatisticsTables where
  top_blocked_paths : List (String × Nat)
  top_clients : List (String × Nat)
deriving DecidableEq, Repr

/-- Model of `Statistics::cleanup_old_metrics` (statistics.rs lines
129-163) acting on a start-of-pass snapshot of both tables. -/
def cleanup_old_metrics (s : StatisticsTables) : StatisticsTables :=
  { top_blocked_paths := trimTable s.top_blocked_paths,
    top_clients := trimTable s.top_clients }

/-! ## Serve pipeline model (`serve.rs`)

The serve pipeline after the URI has been rebuilt and the upgrade path
excluded (serve.rs lines 50-166).  The two HTML templates `head.html` and
`error.html` / `blocked_by_privaxy.html` are embedded assets not under
the sources; they are parameters of the model.  Body streaming is out of
the modelled slice: for a successfully forwarded response only the status
is recorded. -/

/-- An HTTP response: status code and (for synchronous bodies) its text. -/
structure HttpResponse where
  status : Nat
  body : String
deriving DecidableEq, Repr

/-- Placeholder replaced in `error.html` (serve.rs line 173). -/
def errorPlaceholder : String := "#\x7brequest_error_reson\x7d#"

/-- Placeholder replaced in `blocked_by_privaxy.html` (serve.rs line 194). -/
def filterPlaceholder : String := "#\x7bmatching_filter\x7d#"

/-- Model of `get_informative_error_response` (serve.rs lines 169-179):
a 502 whose body is `head.html` followed by `error.html` with the
placeholder replaced by the error text. -/
def get_informative_error_response (head_html error_html reason : String) :
    HttpResponse :=
  { status := 502,
    body := head_html ++ error_html.replace errorPlaceholder reason }

/-- Model of `get_blocked_by_privaxy_response` (serve.rs lines 181-200). -/
def get_blocked_by_privaxy_response (head_html blocked_html : String)
    (result : NetworkMatch) : HttpResponse :=
  match result.redirect with
  | some resource => { status := 200, body := resource }
  | none =>
    { status := 403,
      body := head_html ++
        blocked_html.replace filterPlaceholder
          (result.filter.getD "No information") }

/-- Statistics counters touched by the serve pipeline. -/
structure ServeStats where
  proxied_requests : Nat
  blocked_requests : Nat
  top_blocked_paths : List (String × Nat)
  top_clients : List (String × Nat)
deriving DecidableEq, Repr

/-- `Statistics::increment_top_*`: bump a key in a table. -/
def bumpEntry (t : List (String × Nat)) (k : String) : List (String × Nat) :=
  match alookup t k with
  | some n => ainsert t k (n + 1)
  | none => ainsert t k 1

/-- Status and headers of the upstream reply (body is streamed aside). -/
structure UpstreamResponse where
  status : Nat
deriving DecidableEq, Repr

/-- Model of the serve pipeline after the URI rebuild, for a non-upgrade
request (serve.rs lines 50-166): bump `top_clients`, consult the blocker,
serve the block page or forward upstream.  `blocker` is the reply of
`is_network_url_blocked`; `upstream` is the outcome of the upstream
send, `Except.error` carrying the error text. -/
def serve_after_uri (head_html error_html blocked_html : String)
    (client_ip scheme_string host path : String)
    (blocker : Bool × NetworkMatch)
    (upstream : Except String UpstreamResponse)
    (stats : ServeStats) : HttpResponse × ServeStats :=
  let stats := { stats with top_clients := bumpEntry stats.top_clients client_ip }
  let (is_request_blocked, blocker_result) := blocker
  if is_request_blocked then
    let stats :=
      { stats with
        blocked_requests := stats.blocked_requests + 1,
        top_blocked_paths :=
          bumpEntry stats.top_blocked_paths
            (scheme_string ++ "://" ++ host ++ path) }
    (get_blocked_by_privaxy_response head_html blocked_html blocker_result, stats)
  else
    match upstream with
    | .error err => (get_informative_error_response head_html error_html err, stats)
    | .ok response =>
      ({ status := response.status, body := "" },
       { stats with proxied_requests := stats.proxied_requests + 1 })

/-! ## Resource assembler model (`blocker_utils.rs`)

`MimeType` and `from_extension` come from the `adblock` crate (external
dependency); they are embedded with the extension table of the crate.  File
contents are byte lists; for the text branch the source decodes the bytes
as UTF-8, removes every `\r` character and encodes the resulting string,
which on the byte level is exactly removing every 0x0D byte (a 0x0D byte
in valid UTF-8 is always a standalone scalar value). -/

/-- Model of `adblock::resources::MimeType`. -/
inductive MimeType where
  | TextCss
  | ImageGif
  | TextHtml
  | ApplicationJavascript
  | AudioMp3
  | VideoMp4
  | ImagePng
  | TextPlain
  | TextXml
  | Unknown
deriving DecidableEq, Repr

/-- Suffix after the last dot of a path, or `none` when the path has no
dot (models Rust `rfind('.')` plus the index slice). -/
def extensionAfterLastDot (resource_path : String) : Option String :=
  if resource_path.data.contains '.' then
    some (String.mk
      ((resource_path.data.reverse.takeWhile (fun c => c != '.')).reverse))
  else none

/-- Model of `MimeType::from_extension`: the extension after the last
dot of the resource path selects the MIME type. -/
def mimeFromExtension (resource_path : String) : MimeType :=
  match extensionAfterLastDot resource_path with
  | none => .Unknown
  | some ext =>
    if ext == "css" then .TextCss
    else if ext == "gif" then .ImageGif
    else if ext == "html" then .TextHtml
    else if ext == "js" then .ApplicationJavascript
    else if ext == "mp3" then .AudioMp3
    else if ext == "mp4" then .VideoMp4
    else if ext == "png" then .ImagePng
    else if ext == "txt" then .TextPlain
    else if ext == "xml" then .TextXml
    else .Unknown

/-- The MIME types the assembler strips carriage returns for
(blocker_utils.rs line 201): exactly the three text types named in its
match arm. -/
def isCrStrippedMime : MimeType → Bool
  | .ApplicationJavascript => true
  | .TextHtml => true
  | .TextPlain => true
  | _ => false

/-- Model of `ResourceType` from the `adblock` crate. -/
inductive ResourceKind where
  | Template
  | Mime (m : MimeType)
deriving DecidableEq, Repr

/-- Model of `adblock::resources::Resource` (the fields the assembler
fills; `dependencies` is always empty and `permission` always default). -/
structure ResourceModel where
  name : String
  aliases : List String
  kind : ResourceKind
  content : String
deriving DecidableEq, Repr

/-- Model of `ResourceProperties` (blocker_utils.rs lines 21-26); the
source field `alias` is spelled `alias_names` because `alias` is a Lean
keyword. -/
structure ResourcePropertiesModel where
  name : String
  alias_names : List String
  data : Option String
deriving DecidableEq, Repr

/-- Remove every carriage-return byte. -/
def stripCarriageReturns (bs : List Nat) : List Nat :=
  bs.filter (fun b => b ≠ 13)

/-- Model of `build_resource_from_file_contents` (blocker_utils.rs lines
193-216). -/
def build_resource_from_file_contents (resource_contents : List Nat)
    (resource_info : ResourcePropertiesModel) : ResourceModel :=
  let mimetype := mimeFromExtension resource_info.name
  let content :=
    match mimetype with
    | .ApplicationJavascript | .TextHtml | .TextPlain =>
      String.mk (base64Encode (stripCarriageReturns resource_contents))
    | _ => String.mk (base64Encode resource_contents)
  { name := resource_info.name, aliases := resource_info.alias_names,
    kind := .Mime mimetype, content := content }

/-! ## Scriptlet manifest parser (`blocker_utils.rs` lines 129-189)

`read_template_resources` iterates over the lines of the manifest (after
the top block comment has been stripped by `TOP_COMMENT_RE`); the parser
proper is a fold over that line list, modelled here directly on a
`List String`.  The `expect` panics on malformed detail lines are
modelled by `Option`: `none` is a panic of the source. -/

/-- Template marker looked for in a scriptlet body
(blocker_utils.rs line 163). -/
def templateMarker : String := "\x7b\x7b1\x7d\x7d"

/-- Parser state of the scriptlet loop: the name of the current block, its
detail lines (in push order), its accumulated script body, and the
completed resources. -/
structure ScriptletParseState where
  name : Option String
  details : List (String × String)
  script : String
  resources : List ResourceModel
deriving DecidableEq, Repr

/-- Initial scriptlet parser state. -/
def scriptletInit : ScriptletParseState :=
  { name := none, details := [], script := "", resources := [] }

/-- Resource pushed when a scriptlet block completes (blocker_utils.rs
lines 163-181): the kind is `Template` when the accumulated script
contains the `{{1}}` marker, otherwise a plain JavaScript mime resource;
the content is the base64 of the script; the aliases are the values
pushed under the `alias` detail key, in order. -/
def mkScriptletResource (n : String) (details : List (String × String))
    (script : String) : ResourceModel :=
  { name := n,
    aliases := (details.filter (fun d => d.1 == "alias")).map (fun d => d.2),
    kind :=
      if strContains script templateMarker then .Template
      else .Mime .ApplicationJavascript,
    content := base64EncodeString script }

/-- One iteration of the scriptlet parser loop (blocker_utils.rs lines
137-186), following the branch order of the source: comment lines are skipped; while
no name is recorded only a `/// ` line is consumed (as the name); then
`/// ` lines are detail lines (panicking when they lack a property name
or value), non-blank lines extend the script, and a blank line completes
the block. -/
def scriptletStep (st : ScriptletParseState) (line : String) :
    Option ScriptletParseState :=
  if strStarts line "#" || strStarts line "// " || line == "//" then
    some st
  else
    match st.name with
    | none =>
      if strStarts line "/// " then
        some { st with name := some (strTrim (line.drop 4)) }
      else
        some st
    | some n =>
      if strStarts line "/// " then
        match splitWs (line.drop 4) with
        | prop :: value :: _ =>
          some { st with details := st.details ++ [(prop, value)] }
        | _ => none
      else if line.data.any (fun c => !c.isWhitespace) then
        some { st with script := st.script ++ strTrim line ++ "\n" }
      else
        some { name := none, details := [], script := "",
               resources := st.resources ++ [mkScriptletResource n st.details st.script] }

/-- Model of `read_template_resources` on the line list of the
(top-comment-stripped) manifest. -/
def read_template_resources (lines : List String) : Option (List ResourceModel) :=
  (lines.foldlM scriptletStep scriptletInit).map (fun st => st.resources)

/-- Classification property of a completed scriptlet resource: its
content is the base64 of some script body, and its kind is `Template`
when that body contains the `{{1}}` marker and
`Mime ApplicationJavascript` otherwise. -/
def ScriptletKindSpec (r : ResourceModel) : Prop :=
  ∃ script, r.content = base64EncodeString script ∧
    r.kind = (if strContains script templateMarker then ResourceKind.Template
              else ResourceKind.Mime MimeType.ApplicationJavascript)

/-! ## Theorems -/

/-- Claim C8: for every authority whose host string is longer than 64
bytes, the subject CN of the generated leaf certificate request equals the
literal string "privaxy_cn_too_long.local"; for hosts of 64 bytes or
fewer the CN equals the host itself. -/
theorem leaf_cn_truncation (a : Authority) :
    (a.host.utf8ByteSize > 64 →
      (build_certificate_request a).subject_cn = privaxyCnTooLong) ∧
    (a.host.utf8ByteSize ≤ 64 →
      (build_certificate_request a).subject_cn = a.host) := by
  constructor
  · intro h
    simp only [build_certificate_request, if_pos h]
  · intro h
    have hn : ¬ a.host.utf8ByteSize > 64 := by omega
    simp only [build_certificate_request, if_neg hn]

/-- Witness for C8: concrete 70-byte and 11-byte hosts. -/
theorem leaf_cn_truncation_witness :
    (build_certificate_request
      ⟨"aaaaaaaaaaaaaaaaaaaaaaaaaaaaaaaaaaaaaaaaaaaaaaaaaaaaaaaaaaaaaaaaaaaa",
       some 443⟩).subject_cn = privaxyCnTooLong ∧
    (build_certificate_request ⟨"example.com", some 443⟩).subject_cn =
      "example.com" :=
  ⟨(leaf_cn_truncation _).1 (by decide), (leaf_cn_truncation _).2 (by decide)⟩

/-- Claim C9: a `web_accessible_resources` file whose MIME type is one of
the text types distinguished by the assembler has every carriage-return
byte stripped from its contents before base64 encoding, and every file of
any other (binary) type is base64 encoded byte-for-byte as-is. -/
theorem resource_text_cr_stripping (resource_contents : List Nat)
    (resource_info : ResourcePropertiesModel) :
    (isCrStrippedMime (mimeFromExtension resource_info.name) = true →
      (build_resource_from_file_contents resource_contents resource_info).content =
        String.mk (base64Encode (resource_contents.filter (fun b => b ≠ 13)))) ∧
    (isCrStrippedMime (mimeFromExtension resource_info.name) = false →
      (build_resource_from_file_contents resource_contents resource_info).content =
        String.mk (base64Encode resource_contents)) := by
  constructor <;> intro h <;>
    · cases hm : mimeFromExtension resource_info.name <;>
        rw [hm] at h <;>
        simp_all [build_resource_from_file_contents, stripCarriageReturns,
          isCrStrippedMime, hm]

/-- Witness for C9: a JavaScript file has its CR byte removed, a PNG file
is encoded as-is. -/
theorem resource_text_cr_stripping_witness :
    (build_resource_from_file_contents [72, 13, 73] ⟨"x.js", [], none⟩).content =
      String.mk (base64Encode [72, 73]) ∧
    (build_resource_from_file_contents [72, 13, 73] ⟨"x.png", [], none⟩).content =
      String.mk (base64Encode [72, 13, 73]) :=
  ⟨(resource_text_cr_stripping [72, 13, 73] ⟨"x.js", [], none⟩).1 (by decide),
   (resource_text_cr_stripping [72, 13, 73] ⟨"x.png", [], none⟩).2 (by decide)⟩

/-- Claim C3: processing a ReplaceEngine command builds the new engine
from the filter strings with default parse options and the startup
resource table attached, drops the old engine before sending the
acknowledgement reply, increments `filter_updates` by one, and sets
`active_filters` to the total byte length of the filter strings divided
by 1024. -/
theorem replace_engine_spec (sem : EngineSemantics) (b : BlockerState)
    (filters : List String) (elapsed : Nat) :
    (process_request sem b (.replace_engine filters) elapsed).1.engine =
      { filter_lists := filters, resources_attached := b.resources_table } ∧
    (process_request sem b (.replace_engine filters) elapsed).1.metrics.filter_updates =
      b.metrics.filter_updates + 1 ∧
    (process_request sem b (.replace_engine filters) elapsed).1.metrics.active_filters =
      (filters.map String.utf8ByteSize).sum / 1024 ∧
    (process_request sem b (.replace_engine filters) elapsed).2 =
      [.engine_dropped b.engine, .reply_sent (.network allFalseMatch)] :=
  ⟨rfl, rfl, rfl, rfl⟩

/-- Claim C4: while the blocking-disabled flag is set, a Network query is
answered with the all-false match and a Cosmetic query with the empty
cosmetic result, the engine is never consulted (the event trace holds no
engine query), and the corresponding request counters are still
incremented. -/
theorem blocker_disabled_bypasses_engine (sem : EngineSemantics)
    (b : BlockerState) (u referer : String) (ids classes : List String)
    (e1 e2 : Nat) (h : is_enabled b = false) :
    (process_request sem b (.url u referer) e1).2 =
      [.reply_sent (.network allFalseMatch)] ∧
    (process_request sem b (.url u referer) e1).1.metrics.network_requests =
      b.metrics.network_requests + 1 ∧
    (process_request sem b (.cosmetic u ids classes) e2).2 =
      [.reply_sent (.cosmetic emptyCosmeticResult)] ∧
    (process_request sem b (.cosmetic u ids classes) e2).1.metrics.cosmetic_requests =
      b.metrics.cosmetic_requests + 1 := by
  simp [process_request, handle_network_request, handle_cosmetic_request, h]

/-- Witness for C4: concrete disabled state and queries. -/
theorem blocker_disabled_bypasses_engine_witness :
    (process_request failingParseSemantics disabledBlockerState
        (.url "https://a.test/" "https://a.test/") 0).2 =
      [.reply_sent (.network allFalseMatch)] ∧
    (process_request failingParseSemantics disabledBlockerState
        (.url "https://a.test/" "https://a.test/") 0).1.metrics.network_requests =
      disabledBlockerState.metrics.network_requests + 1 ∧
    (process_request failingParseSemantics disabledBlockerState
        (.cosmetic "https://a.test/" [] []) 0).2 =
      [.reply_sent (.cosmetic emptyCosmeticResult)] ∧
    (process_request failingParseSemantics disabledBlockerState
        (.cosmetic "https://a.test/" [] []) 0).1.metrics.cosmetic_requests =
      disabledBlockerState.metrics.cosmetic_requests + 1 :=
  blocker_disabled_bypasses_engine failingParseSemantics disabledBlockerState
    "https://a.test/" "https://a.test/" [] [] 0 0 (by decide)

/-- Counterexample to claim C5 as stated: with the blocking-disabled flag
set, a Network query whose URL fails to parse (the parser of
`failingParseSemantics` rejects every URL) is answered without
incrementing `failed_requests`: the counter stays 0 where the claim
demands 1. -/
theorem network_parse_failure_counterexample :
    failingParseSemantics.request_new "https://a.test/" "https://a.test/" = none ∧
    disabledBlockerState.metrics.failed_requests = 0 ∧
    (process_request failingParseSemantics disabledBlockerState
        (.url "https://a.test/" "https://a.test/") 0).1.metrics.failed_requests = 0 :=
  ⟨rfl, rfl, rfl⟩

/-- Claim C5 (amended): for every Network query processed while blocking
is enabled whose URL fails to parse into an engine request, the actor
returns the all-false match, increments `failed_requests` exactly once,
does not consult the engine, and leaves the blocked counter unchanged. -/
theorem network_parse_failure_fail_open (sem : EngineSemantics)
    (b : BlockerState) (u referer : String) (elapsed : Nat)
    (henabled : is_enabled b = true)
    (hparse : sem.request_new u referer = none) :
    (process_request sem b (.url u referer) elapsed).2 =
      [.reply_sent (.network allFalseMatch)] ∧
    (process_request sem b (.url u referer) elapsed).1.metrics.failed_requests =
      b.metrics.failed_requests + 1 ∧
    (process_request sem b (.url u referer) elapsed).1.metrics.blocked_requests =
      b.metrics.blocked_requests := by
  simp [process_request, handle_network_request, henabled, hparse]

/-- Witness for C5 (amended): enabled state, failing parser. -/
theorem network_parse_failure_fail_open_witness :
    (process_request failingParseSemantics enabledBlockerState
        (.url "https://a.test/" "https://a.test/") 0).2 =
      [.reply_sent (.network allFalseMatch)] ∧
    (process_request failingParseSemantics enabledBlockerState
        (.url "https://a.test/" "https://a.test/") 0).1.metrics.failed_requests =
      enabledBlockerState.metrics.failed_requests + 1 ∧
    (process_request failingParseSemantics enabledBlockerState
        (.url "https://a.test/" "https://a.test/") 0).1.metrics.blocked_requests =
      enabledBlockerState.metrics.blocked_requests :=
  network_parse_failure_fail_open failingParseSemantics enabledBlockerState
    "https://a.test/" "https://a.test/" 0 (by decide) (by decide)

/-- Claim C7: when the upstream send fails, the serve pipeline replies
502 with the templated HTML body embedding the error text, and
`proxied_requests` is unchanged for that request; it is incremented
exactly when the upstream send succeeds. -/
theorem serve_upstream_failure_502 (head_html error_html blocked_html : String)
    (client_ip scheme_string host path : String) (m : NetworkMatch)
    (err : String) (resp : UpstreamResponse) (stats : ServeStats) :
    (serve_after_uri head_html error_html blocked_html client_ip scheme_string
        host path (false, m) (.error err) stats).1.status = 502 ∧
    (serve_after_uri head_html error_html blocked_html client_ip scheme_string
        host path (false, m) (.error err) stats).1.body =
      head_html ++ error_html.replace errorPlaceholder err ∧
    (serve_after_uri head_html error_html blocked_html client_ip scheme_string
        host path (false, m) (.error err) stats).2.proxied_requests =
      stats.proxied_requests ∧
    (serve_after_uri head_html error_html blocked_html client_ip scheme_string
        host path (false, m) (.ok resp) stats).2.proxied_requests =
      stats.proxied_requests + 1 :=
  ⟨rfl, rfl, rfl, rfl⟩

/-- Helper: a single `get` step never adds a pending entry when the
pending map is empty: the miss path of `CertCache::get` goes straight to
generation without registering a leader. -/
theorem stepGet_preserves_pending_empty (s : CacheSys) (i : Nat)
    (h : s.pending = []) : (stepGet s i).pending = [] := by
  unfold stepGet
  split
  · exact h
  · rename_i t ht
    split
    · split <;> simp [setTaskPc, h]
    · simp [setTaskPc, h]
    · rw [show alookup s.pending t.authority = none by simp [h, alookup]]
      simp [setTaskPc, h]
    · simp [setTaskPc, h]
    · simp [setTaskPc, h]
    · exact h
    · exact h

/-- Helper: under any interleaving of `get` steps and generator passes,
the pending map stays empty forever when it starts empty. -/
theorem runSchedule_pending_empty (sched : List (Option Nat)) :
    ∀ (s : CacheSys), s.pending = [] → (runSchedule s sched).pending = [] := by
  induction sched with
  | nil => intro s h; exact h
  | cons step rest ih =>
    intro s h
    cases step with
    | some i => exact ih _ (stepGet_preserves_pending_empty s i h)
    | none =>
      have hgen : (stepGenerator s).pending = [] := by
        unfold stepGenerator
        rw [h]
        exact h
      exact ih _ hgen

/-- Claim C1 (refuted by the code): in an overlapping execution of two
`CertCache::get` calls for the same authority on an empty cache, both
calls run a leaf construction (two leaves are minted), the two calls
return different leaf certificates, and neither call ever registers in
the pending map (the ghost counter of pending insertions stays zero), so
the leader/waiter single-flight protocol of the claim never takes
place. -/
theorem certCache_get_not_single_flight :
    (runSchedule twoGetsInit twoGetsSchedule).mint_count = 2 ∧
    (runSchedule twoGetsInit twoGetsSchedule).pending_inserts = 0 ∧
    (runSchedule twoGetsInit twoGetsSchedule).pending = [] ∧
    taskResult (runSchedule twoGetsInit twoGetsSchedule) 0 =
      some { authority := exampleAuthority, serial := 0 } ∧
    taskResult (runSchedule twoGetsInit twoGetsSchedule) 1 =
      some { authority := exampleAuthority, serial := 1 } :=
  ⟨rfl, rfl, rfl, rfl, rfl⟩

/-- Counterexample to claim C2 as stated: a CONNECT for the excluded host
"example.com" is acknowledged with 200 and tunnelled, but the certificate
cache ends up populated for the authority and one leaf has been minted
(`mint_count = 1`), because the certificate fetch precedes the exclusion
check. -/
theorem mitm_excluded_host_mints_leaf :
    serve_mitm_session ["example.com"] ⟨"CONNECT", some exampleAuthority⟩
        emptySeqCertCache true =
      some (.connect_ack (.tunnel "example.com" 443)
        { cache := [(exampleAuthority, { authority := exampleAuthority, serial := 0 })],
          pending := [], hits := 0, misses := 1, mint_count := 1 }) := rfl

/-- Helper: looking up the key just inserted. -/
theorem alookup_ainsert {α β : Type} [BEq α] [LawfulBEq α]
    (l : List (α × β)) (k : α) (v : β) : alookup (ainsert l k v) k = some v := by
  simp [alookup, ainsert, List.find?]

/-- Claim C2 (amended): a CONNECT whose host is in the exclusion store is
acknowledged with 200 and the session becomes a raw TCP tunnel to
host:port (default 443); but the leaf certificate is fetched before the
exclusion check, so the certificate cache ends up populated for that
authority (the TLS configuration of the leaf simply goes unused). -/
theorem mitm_excluded_host_tunnel (exclusions : List String) (a : Authority)
    (cs : SeqCertCache) (hexcl : exclusions.contains a.host = true)
    (hpending : alookup cs.pending a = none) :
    ∃ leaf cs2,
      certCacheGetSeq cs a = some (leaf, cs2) ∧
      serve_mitm_session exclusions ⟨"CONNECT", some a⟩ cs true =
        some (.connect_ack (.tunnel a.host (a.port.getD 443)) cs2) ∧
      alookup cs2.cache a = some leaf := by
  have hmem : a.host ∈ exclusions := by simpa using hexcl
  cases hc : alookup cs.cache a with
  | some c =>
    refine ⟨c, { cs with hits := cs.hits + 1 }, ?_, ?_, ?_⟩
    · simp [certCacheGetSeq, hc]
    · simp [serve_mitm_session, certCacheGetSeq, hc, hmem]
    · simpa using hc
  | none =>
    refine ⟨{ authority := a, serial := cs.mint_count },
      { cache := ainsert cs.cache a { authority := a, serial := cs.mint_count },
        pending := cs.pending, hits := cs.hits, misses := cs.misses + 1,
        mint_count := cs.mint_count + 1 }, ?_, ?_, ?_⟩
    · simp [certCacheGetSeq, hc, hpending]
    · simp [serve_mitm_session, certCacheGetSeq, hc, hpending, hmem]
    · exact alookup_ainsert _ _ _

/-- Witness for C2 (amended): the concrete excluded CONNECT. -/
theorem mitm_excluded_host_tunnel_witness :
    ∃ leaf cs2,
      certCacheGetSeq emptySeqCertCache exampleAuthority = some (leaf, cs2) ∧
      serve_mitm_session ["example.com"] ⟨"CONNECT", some exampleAuthority⟩
          emptySeqCertCache true =
        some (.connect_ack
          (.tunnel exampleAuthority.host (exampleAuthority.port.getD 443)) cs2) ∧
      alookup cs2.cache exampleAuthority = some leaf :=
  mitm_excluded_host_tunnel ["example.com"] exampleAuthority emptySeqCertCache
    (by decide) rfl

/-- Helper: the descending-count comparison is transitive. -/
theorem countDescending_trans {α : Type} (a b c : α × Nat) :
    countDescending a b → countDescending b c → countDescending a c := by
  simp only [countDescending, decide_eq_true_eq]
  omega

/-- Helper: the descending-count comparison is total. -/
theorem countDescending_total {α : Type} (a b : α × Nat) :
    countDescending a b || countDescending b a := by
  simp only [countDescending, Bool.or_eq_true, decide_eq_true_eq]
  omega

/-- Helper: the trimmed table keeps at most 50 entries, keeps only
entries of the input, and the count of every kept entry dominates the
count of every dropped entry. -/
theorem trimTable_spec {α : Type} (t : List (α × Nat)) :
    (trimTable t).length ≤ 50 ∧
    (∀ x ∈ trimTable t, x ∈ t) ∧
    (∀ x ∈ trimTable t, ∀ y ∈ t, y ∉ trimTable t → y.2 ≤ x.2) := by
  refine ⟨?_, ?_, ?_⟩
  · simp only [trimTable, entriesPerStatisticsTable, List.length_take]
    exact Nat.min_le_left _ _
  · intro x hx
    exact List.mem_mergeSort.1 (List.mem_of_mem_take hx)
  · intro x hx y hy hyn
    have hs : (t.mergeSort countDescending).Pairwise
        (fun a b => countDescending a b) :=
      List.sorted_mergeSort (fun a b c => countDescending_trans a b c)
        (fun a b => countDescending_total a b) t
    have hy2 : y ∈ t.mergeSort countDescending := List.mem_mergeSort.2 hy
    rw [← List.take_append_drop 50 (t.mergeSort countDescending)] at hy2 hs
    have hydrop : y ∈ (t.mergeSort countDescending).drop 50 := by
      rcases List.mem_append.1 hy2 with h1 | h1
      · exact absurd h1 hyn
      · exact h1
    obtain ⟨-, -, hrel⟩ := List.pairwise_append.1 hs
    have := hrel x hx y hydrop
    simpa [countDescending] using this

/-- Claim C6: after a cleanup pass over the statistics tables,
`top_blocked_paths` and `top_clients` each hold at most 50 entries, every
retained entry was present at the start of the pass, and every retained
entry has a count at least that of every dropped entry. -/
theorem statistics_cleanup_topk (s : StatisticsTables) :
    (cleanup_old_metrics s).top_blocked_paths.length ≤ 50 ∧
    (cleanup_old_metrics s).top_clients.length ≤ 50 ∧
    (∀ x ∈ (cleanup_old_metrics s).top_blocked_paths, x ∈ s.top_blocked_paths) ∧
    (∀ x ∈ (cleanup_old_metrics s).top_clients, x ∈ s.top_clients) ∧
    (∀ x ∈ (cleanup_old_metrics s).top_blocked_paths,
      ∀ y ∈ s.top_blocked_paths,
        y ∉ (cleanup_old_metrics s).top_blocked_paths → y.2 ≤ x.2) ∧
    (∀ x ∈ (cleanup_old_metrics s).top_clients,
      ∀ y ∈ s.top_clients,
        y ∉ (cleanup_old_metrics s).top_clients → y.2 ≤ x.2) := by
  obtain ⟨h1, h2, h3⟩ := trimTable_spec s.top_blocked_paths
  obtain ⟨g1, g2, g3⟩ := trimTable_spec s.top_clients
  exact ⟨h1, g1, h2, g2, h3, g3⟩

/-- Witness for C6: a concrete one-entry table, with the membership
hypothesis discharged concretely. -/
theorem statistics_cleanup_topk_witness :
    (cleanup_old_metrics ⟨[("p", 3)], [("c", 7)]⟩).top_blocked_paths.length ≤ 50 ∧
    ("p", 3) ∈ (⟨[("p", 3)], [("c", 7)]⟩ : StatisticsTables).top_blocked_paths :=
  ⟨(statistics_cleanup_topk _).1,
   (statistics_cleanup_topk _).2.2.1 ("p", 3)
     (by simp [cleanup_old_metrics, trimTable, entriesPerStatisticsTable])⟩

/-- Helper: a completed scriptlet resource satisfies the classification
property, with its accumulated script as the body. -/
theorem mkScriptletResource_spec (n : String) (details : List (String × String))
    (script : String) : ScriptletKindSpec (mkScriptletResource n details script) :=
  ⟨script, rfl, rfl⟩

/-- Helper: one parser step only ever extends the resource list by a
completed scriptlet resource, so the classification property is
preserved. -/
theorem scriptletStep_resources (st st2 : ScriptletParseState) (line : String)
    (h : scriptletStep st line = some st2)
    (hinv : ∀ r ∈ st.resources, ScriptletKindSpec r) :
    ∀ r ∈ st2.resources, ScriptletKindSpec r := by
  have key : st2.resources = st.resources ∨
      ∃ n, st2.resources =
        st.resources ++ [mkScriptletResource n st.details st.script] := by
    unfold scriptletStep at h
    split at h
    · exact Or.inl (by cases h; rfl)
    · split at h
      · split at h
        · exact Or.inl (by cases h; rfl)
        · exact Or.inl (by cases h; rfl)
      · rename_i n hn
        split at h
        · split at h
          · exact Or.inl (by cases h; rfl)
          · exact Option.noConfusion h
        · split at h
          · exact Or.inl (by cases h; rfl)
          · exact Or.inr ⟨n, by cases h; rfl⟩
  intro r hr
  rcases key with hk | ⟨n, hk⟩
  · exact hinv r (hk ▸ hr)
  · rw [hk] at hr
    rcases List.mem_append.1 hr with h1 | h1
    · exact hinv r h1
    · have heq : r = mkScriptletResource n st.details st.script := by
        simpa using h1
      rw [heq]
      exact mkScriptletResource_spec n st.details st.script

/-- Helper: the classification property is an invariant of the whole
parser fold. -/
theorem scriptlet_fold_invariant (lines : List String) :
    ∀ (st st2 : ScriptletParseState),
      lines.foldlM scriptletStep st = some st2 →
      (∀ r ∈ st.resources, ScriptletKindSpec r) →
      ∀ r ∈ st2.resources, ScriptletKindSpec r := by
  induction lines with
  | nil =>
    intro st st2 h hinv
    simp only [List.foldlM_nil] at h
    cases h
    exact hinv
  | cons l ls ih =>
    intro st st2 h hinv
    rw [List.foldlM_cons] at h
    cases hstep : scriptletStep st l with
    | none => rw [hstep] at h; exact Option.noConfusion h
    | some st1 =>
      rw [hstep] at h
      simp only [Option.bind_eq_bind, Option.some_bind] at h
      exact ih st1 st2 h (scriptletStep_resources st st1 l hstep hinv)

/-- Claim C10: every resource produced by the scriptlet-manifest parser
has kind `Template` exactly when its accumulated script body contains the
substring "\x7b\x7b1\x7d\x7d", and kind `Mime ApplicationJavascript`
otherwise. -/
theorem scriptlet_kind_template_iff_marker (lines : List String)
    (out : List ResourceModel)
    (hout : read_template_resources lines = some out) :
    ∀ r ∈ out, ScriptletKindSpec r := by
  unfold read_template_resources at hout
  cases hfold : lines.foldlM scriptletStep scriptletInit with
  | none => rw [hfold] at hout; exact Option.noConfusion hout
  | some st =>
    rw [hfold] at hout
    have hres : st.resources = out := by simpa using hout
    rw [← hres]
    exact scriptlet_fold_invariant lines scriptletInit st hfold
      (by simp [scriptletInit])

/-- Witness for C10: a one-block manifest without the marker parses to a
plain JavaScript mime resource satisfying the classification property. -/
theorem scriptlet_kind_template_iff_marker_witness :
    ScriptletKindSpec (mkScriptletResource "w" [] "a = 1;\n") :=
  scriptlet_kind_template_iff_marker ["/// w", "a = 1;", ""]
    [mkScriptletResource "w" [] "a = 1;\n"] rfl
    (mkScriptletResource "w" [] "a = 1;\n") (by simp)

end Privaxy
